import Mathlib

/-!
Shallow embedding of the KnowledgeLink frontend (into-the-night/knowledge-link).

The definitions below translate the JavaScript/JSX source under `src/` into
Lean: React event handlers become pure functions from their inputs (form
fields, component props, component state) to the request parameters they
build and the state/DOM output they produce.  JavaScript semantics that the
code relies on are modelled explicitly:

* `String.prototype.trim` → `jsTrim` (strip leading/trailing whitespace);
* string truthiness (`if (s)`, `s || d`) → emptiness tests on `String` /
  `Option String` (`null`/`undefined` is `none`);
* `String.prototype.split(',')` → `String.splitOn ","`;
* `String.prototype.includes` → `jsIncludes` (substring test);
* `String.prototype.toLowerCase` → `String.toLower`;
* `Math.round` → `mathRound` (⌊x + 1/2⌋, JS rounds half toward +∞);
* numeric literals are read as rationals;
* an optional query-string parameter that the code omits from the `params`
  object is `none`.
-/

/-- Whitespace recognised by `String.prototype.trim` (ASCII part of the
WhiteSpace/LineTerminator productions). -/
def isJsWs (c : Char) : Bool :=
  c == ' ' || c == '\t' || c == '\n' || c == '\r' || c == '\x0b' || c == '\x0c'

/-- JS `s.trim()`: drop leading and trailing whitespace. -/
def jsTrim (s : String) : String :=
  String.mk (((s.toList.dropWhile isJsWs).reverse.dropWhile isJsWs).reverse)

/-- Truthiness of a JS string-or-null value: `null`/`undefined` and the empty
string are falsy, every other string is truthy. -/
def jsTruthy (s : Option String) : Bool :=
  match s with
  | none => false
  | some v => v != ""

/-- JS `x || d` for a string-or-null `x` with string default `d`. -/
def jsOrDefault (s : Option String) (d : String) : String :=
  match s with
  | none => d
  | some v => if v = "" then d else v

/-- Helper for `jsSplit`: walks the characters, `acc` holding the current
field reversed. -/
def jsSplitAux (sep : Char) : List Char → List Char → List String
  | [], acc => [String.mk acc.reverse]
  | c :: rest, acc =>
      if c = sep then String.mk acc.reverse :: jsSplitAux sep rest []
      else jsSplitAux sep rest (c :: acc)

/-- JS `s.split(sep)` for a one-character separator: fields between
separators, so `"".split(',') = [""]` and adjacent separators yield empty
fields. -/
def jsSplit (s : String) (sep : Char) : List String :=
  jsSplitAux sep s.toList []

/-- Substring occurrence on lists of characters, structural recursion on the
haystack; used to model `String.prototype.includes`. -/
def charSub (needle hay : List Char) : Bool :=
  match hay with
  | [] => needle.isEmpty
  | c :: t => needle.isPrefixOf (c :: t) || charSub needle t

/-- JS `hay.includes(needle)`. -/
def jsIncludes (hay needle : String) : Bool :=
  charSub needle.toList hay.toList

/-- JS `Math.round`: nearest integer, half-way cases toward +∞. -/
def mathRound (x : ℚ) : ℤ := ⌊x + 1/2⌋

/-! ## `src/frontend/src/api/links.js` — request parameters -/

/-- Query-string parameters built by `linksAPI.searchLinks`
(`GET /link/search`). -/
structure SearchReqParams where
  q : String
  limit : ℕ
  similarity_threshold : ℚ
  user_id : Option String
deriving DecidableEq

/-- Model of `linksAPI.searchLinks(query, limit = 10, similarity_threshold = 0.7,
user_id = null)`: builds `{ q, limit, similarity_threshold }` and adds
`user_id` only when it is truthy.  `none` for an argument means the caller
did not supply it (JS `undefined`), so the default applies. -/
def linksAPI_searchLinks (query : String) (limit : Option ℕ)
    (similarity_threshold : Option ℚ) (user_id : Option String) :
    SearchReqParams :=
  { q := query
    limit := limit.getD 10
    similarity_threshold := similarity_threshold.getD (7/10)
    user_id := if jsTruthy user_id then user_id else none }

/-- Query-string parameters built by `linksAPI.getLinks`
(`GET /link/links`). -/
structure GetLinksReqParams where
  skip : ℕ
  limit : ℕ
  user_id : Option String
deriving DecidableEq

/-- Model of `linksAPI.getLinks(skip = 0, limit = 100, user_id = null)`: builds
`{ skip, limit }` and adds `user_id` only when it is truthy. -/
def linksAPI_getLinks (skip : Option ℕ) (limit : Option ℕ)
    (user_id : Option String) : GetLinksReqParams :=
  { skip := skip.getD 0
    limit := limit.getD 100
    user_id := if jsTruthy user_id then user_id else none }

/-- Exported wrapper `export const searchLinks = (query, limit) =>
linksAPI.searchLinks(query, limit)`: forwards only the query and the
(optional) limit. -/
def searchLinks (query : String) (limit : Option ℕ) : SearchReqParams :=
  linksAPI_searchLinks query limit none none

/-- Exported wrapper `export const fetchLinks = () => linksAPI.getLinks()`:
invokes `getLinks` with no arguments. -/
def fetchLinks : GetLinksReqParams :=
  linksAPI_getLinks none none none

/-! ## `src/frontend/src/components/SearchBar.jsx` -/

/-- Model of `SearchBar.handleSubmit`: `if (!query.trim() || isSearching) return;`
then `await onSearch(query)`.  Returns the argument passed to `onSearch`,
or `none` when the handler returns before invoking it. -/
def searchBarSubmit (query : String) (isSearching : Bool) : Option String :=
  if jsTrim query == "" || isSearching then none else some query

/-! ## `src/frontend/src/App.jsx` — `handleSearch` -/

/-- A matching chunk carried by a search result
(`{ text, score }`). -/
structure MatchChunk where
  text : String
  score : ℚ
deriving DecidableEq

/-- A search result consumed by the UI (`SearchResults.jsx` reads
`link_id`, `title`, `url`, `score`, `matching_chunks`, `tags`,
`created_at`).  `title` is `none` when the server sent `null`. -/
structure SearchResult where
  link_id : String
  title : Option String
  url : String
  score : ℚ
  matching_chunks : List MatchChunk
  tags : List String
  created_at : String
deriving DecidableEq

/-- The slice of `App` state that `handleSearch` reads and writes. -/
structure AppSearchState where
  searchQuery : String
  searchLoading : Bool
  searchError : Option String
  searchResults : Option (List SearchResult)
deriving DecidableEq

/-- Outcome of the awaited `linksAPI.searchLinks` call: the response data,
or the thrown error's `message` (a string-or-null, read by
`error.message || 'Failed to search. Please try again.'`). -/
inductive SearchOutcome where
  | success (results : List SearchResult)
  | failure (message : Option String)
deriving DecidableEq

/-- Model of `App.handleSearch(query)`: returns early when `!query.trim()`;
otherwise issues `linksAPI.searchLinks(query, 10, 0.7, currentUser?.id)`
and, once the call settles, leaves the state produced by the `setX`
calls along the taken path.  Result: final state paired with the request
issued (`none` when no request was made). -/
def handleSearch (query : String) (currentUserId : Option String)
    (st : AppSearchState) (outcome : SearchOutcome) :
    AppSearchState × Option SearchReqParams :=
  if jsTrim query == "" then (st, none)
  else
    let req := linksAPI_searchLinks query (some 10) (some (7/10)) currentUserId
    match outcome with
    | .success rs =>
        ({ searchQuery := query
           searchLoading := false
           searchError := none
           searchResults := some rs }, some req)
    | .failure msg =>
        ({ searchQuery := query
           searchLoading := false
           searchError := some (jsOrDefault msg "Failed to search. Please try again.")
           searchResults := none }, some req)

/-! ## `src/frontend/src/components/SearchResults.jsx`
(source file `src/unnamed/part_002`) -/

/-- The data content of one rendered result card: the title text
(`result.title || 'Untitled'`), the relevance badge
(`Math.round(result.score * 100)}%`), the url line, the chunk previews
(`matching_chunks.slice(0, 2)`, each with text and
`Math.round(chunk.score * 100)}%`), the `+N more matching sections`
count when more than two chunks matched, and the tag labels.
`highlightText` only wraps occurrences of the query in `<mark>`
elements, preserving the text content, so text is recorded
un-highlighted. -/
structure ResultCard where
  titleText : String
  scoreText : String
  urlText : String
  chunkCards : List (String × String)
  moreChunks : Option ℕ
  tagLabels : List String
deriving DecidableEq

/-- Score badge text `{Math.round(score * 100)}%`. -/
def displayScore (score : ℚ) : String :=
  toString (mathRound (score * 100)) ++ "%"

/-- The card rendered for one result inside the results list. -/
def renderResultCard (r : SearchResult) : ResultCard :=
  { titleText := jsOrDefault r.title "Untitled"
    scoreText := displayScore r.score
    urlText := r.url
    chunkCards :=
      if r.matching_chunks.length > 0 then
        (r.matching_chunks.take 2).map (fun c => (c.text, displayScore c.score))
      else []
    moreChunks :=
      if r.matching_chunks.length > 0 && r.matching_chunks.length > 2 then
        some (r.matching_chunks.length - 2)
      else none
    tagLabels := r.tags }

/-- The mutually exclusive render states of `SearchResults`. -/
inductive SearchView where
  | loadingView (query : String)
  | errorView (message : String)
  | noResultsView
  | nothing
  | resultsList (cards : List ResultCard)
deriving DecidableEq

/-- Model of `SearchResults({ results, loading, error, query })`: early return of the
loading spinner while `loading`; else the `Search Failed` card when
`error` is truthy; else, when `!results || results.length === 0`, the
`No results found` card if `query` is truthy and `null` otherwise; else
the list of result cards.  `results` is `none` when the prop is `null`. -/
def renderSearchResults (results : Option (List SearchResult))
    (loading : Bool) (error : Option String) (query : String) : SearchView :=
  if loading then .loadingView query
  else if jsTruthy error then .errorView (error.getD "")
  else
    match results with
    | none => if query != "" then .noResultsView else .nothing
    | some rs =>
        if rs.length == 0 then
          (if query != "" then .noResultsView else .nothing)
        else .resultsList (rs.map renderResultCard)

/-! ## Link form submission — `src/frontend/src/components/LinkForm.jsx`
and `AddLinkModal` (source file `src/unnamed/part_000`).  The two
components share identical validation and tag-processing code. -/

/-- Tag processing in both submit handlers:
`formData.tags ? formData.tags.split(',').map(tag => tag.trim()).filter(tag => tag) : []`. -/
def processTags (tags : String) : List String :=
  if tags != "" then
    ((jsSplit tags ',').map jsTrim).filter (fun tag => tag != "")
  else []

/-- The body sent to `POST /link/links`: `{...formData, tags}` with the
falsy optional fields deleted. -/
structure LinkSubmission where
  url : String
  title : Option String
  description : Option String
  tags : List String
deriving DecidableEq

/-- What a submit attempt does: set a field error (field name, message)
without calling `onSubmit`, or call `onSubmit` with the processed data. -/
inductive FormOutcome where
  | fieldError (field : String) (message : String)
  | submitted (data : LinkSubmission)
deriving DecidableEq

/-- Model of `LinkForm.handleSubmit` / `AddLinkModal.handleSubmit`, abstracted over
`validateUrl` (which wraps the browser's WHATWG `new URL(url)` parser —
external to this repository, so kept as a parameter):
`if (!formData.url.trim()) newErrors.url = 'URL is required';
else if (!validateUrl(formData.url)) newErrors.url = 'Please enter a valid URL';`
then on any error set it and return, else build `processedData`
(tags processed, falsy `title`/`description` deleted) and
`await onSubmit(processedData)`. -/
def linkFormSubmit (validateUrl : String → Bool)
    (url title description tags : String) : FormOutcome :=
  if jsTrim url == "" then .fieldError "url" "URL is required"
  else if !validateUrl url then .fieldError "url" "Please enter a valid URL"
  else .submitted
    { url := url
      title := if title = "" then none else some title
      description := if description = "" then none else some description
      tags := processTags tags }

/-- Model of `AddLinkModal.handleSubmit` (`src/unnamed/part_000`): textually the same
validation and processing as `LinkForm.handleSubmit`. -/
def addLinkModalSubmit (validateUrl : String → Bool)
    (url title description tags : String) : FormOutcome :=
  if jsTrim url == "" then .fieldError "url" "URL is required"
  else if !validateUrl url then .fieldError "url" "Please enter a valid URL"
  else .submitted
    { url := url
      title := if title = "" then none else some title
      description := if description = "" then none else some description
      tags := processTags tags }

/-! ## `src/frontend/src/components/LinksSidebar.jsx` — `filteredLinks` -/

/-- A link record as read by the sidebar filter; fields reached through
optional chaining (`link.title?.`, …) are `Option`s. -/
structure SidebarLink where
  _id : String
  url : Option String
  title : Option String
  description : Option String
  tags : Option (List String)
  created_at : String
deriving DecidableEq

/-- Model of `field?.toLowerCase().includes(search)` — `false` when the field is
`null`/`undefined`. -/
def optFieldIncludes (field : Option String) (search : String) : Bool :=
  match field with
  | none => false
  | some s => jsIncludes s.toLower search

/-- The predicate of `links.filter(link => ...)` in `LinksSidebar`:
`if (!searchFilter) return true;` then match the lowercased filter
against lowercased title, description, url, or any lowercased tag. -/
def linkMatchesFilter (searchFilter : String) (link : SidebarLink) : Bool :=
  if searchFilter == "" then true
  else
    let search := searchFilter.toLower
    optFieldIncludes link.title search ||
    optFieldIncludes link.description search ||
    optFieldIncludes link.url search ||
    (match link.tags with
     | none => false
     | some ts => ts.any (fun tag => jsIncludes tag.toLower search))

/-- Model of `const filteredLinks = links.filter(link => { ... })`. -/
def filteredLinks (searchFilter : String) (links : List SidebarLink) :
    List SidebarLink :=
  links.filter (linkMatchesFilter searchFilter)

/-! ## Helper lemmas -/

/-- Trimming a string made of whitespace alone yields the empty string. -/
theorem jsTrim_eq_empty_of_all_ws (s : String)
    (h : ∀ c ∈ s.toList, isJsWs c) : jsTrim s = "" := by
  unfold jsTrim
  rw [List.dropWhile_eq_nil_iff.mpr h]
  rfl

/-- Correctness of `charSub`: it decides substring occurrence. -/
theorem charSub_iff (needle hay : List Char) :
    charSub needle hay = true ↔ ∃ p q, hay = p ++ needle ++ q := by
  induction hay with
  | nil =>
      constructor
      · intro h
        have hn : needle = [] := by simpa [charSub, List.isEmpty_iff] using h
        exact ⟨[], [], by simp [hn]⟩
      · rintro ⟨p, q, hpq⟩
        have h0 : p ++ needle ++ q = [] := hpq.symm
        rcases List.append_eq_nil.mp h0 with ⟨h1, _⟩
        rcases List.append_eq_nil.mp h1 with ⟨_, hn⟩
        simp [charSub, List.isEmpty_iff, hn]
  | cons c t ih =>
      simp only [charSub, Bool.or_eq_true, ih, List.isPrefixOf_iff_prefix]
      constructor
      · rintro (⟨q, hq⟩ | ⟨p, q, hpq⟩)
        · exact ⟨[], q, by simp [hq]⟩
        · exact ⟨c :: p, q, by simp [hpq]⟩
      · rintro ⟨p, q, hpq⟩
        cases p with
        | nil => exact Or.inl ⟨q, by simpa using hpq.symm⟩
        | cons b p' =>
            simp only [List.cons_append, List.cons.injEq] at hpq
            exact Or.inr ⟨p', q, hpq.2⟩

/-- Correctness of `jsIncludes`: `hay.includes(needle)` holds exactly when `needle` occurs inside
`hay`. -/
theorem jsIncludes_iff (hay needle : String) :
    jsIncludes hay needle = true ↔
      ∃ p q, hay.toList = p ++ needle.toList ++ q :=
  charSub_iff needle.toList hay.toList

/-- Unfolding of `field?.toLowerCase().includes(search)`. -/
theorem optFieldIncludes_iff (field : Option String) (search : String) :
    optFieldIncludes field search = true ↔
      ∃ s, field = some s ∧
        ∃ p q, s.toLower.toList = p ++ search.toList ++ q := by
  cases field <;> simp [optFieldIncludes, jsIncludes_iff]

/-! ## Claim theorems -/

/-- C1: a query that is empty or all whitespace never triggers a search:
`SearchBar.handleSubmit` returns before invoking `onSearch`, and
`App.handleSearch` returns before calling `linksAPI.searchLinks`, so no
request is issued, the app state (results, error, query, loading) is left
untouched, whatever the search outcome would have been. -/
theorem whitespace_query_rejected (query : String)
    (h : ∀ c ∈ query.toList, isJsWs c)
    (isSearching : Bool) (currentUserId : Option String)
    (st : AppSearchState) (outcome : SearchOutcome) :
    searchBarSubmit query isSearching = none ∧
    handleSearch query currentUserId st outcome = (st, none) := by
  have ht : jsTrim query = "" := jsTrim_eq_empty_of_all_ws query h
  exact ⟨by simp [searchBarSubmit, ht], by simp [handleSearch, ht]⟩

/-- Witness for C1 at the two-space query. -/
theorem whitespace_query_rejected_witness :
    searchBarSubmit "  " false = none ∧
    handleSearch "  " none ⟨"", false, none, none⟩ (.success []) =
      (⟨"", false, none, none⟩, none) :=
  whitespace_query_rejected "  " (by decide) false none
    ⟨"", false, none, none⟩ (.success [])

/-- C2: `linksAPI.searchLinks` defaults `limit` to 10 and
`similarity_threshold` to 0.7 when they are not supplied, and the exported
`searchLinks` wrapper forwards only the query (and optionally the limit),
leaving the threshold at its default. -/
theorem searchLinks_defaults (query : String) (lim : ℕ) (uid : Option String) :
    searchLinks query none = linksAPI_searchLinks query none none none ∧
    (searchLinks query none).limit = 10 ∧
    (searchLinks query none).similarity_threshold = 7/10 ∧
    (searchLinks query (some lim)).limit = lim ∧
    (searchLinks query (some lim)).similarity_threshold = 7/10 ∧
    (searchLinks query (some lim)).user_id = none ∧
    (linksAPI_searchLinks query none none uid).limit = 10 ∧
    (linksAPI_searchLinks query none none uid).similarity_threshold = 7/10 :=
  ⟨rfl, rfl, rfl, rfl, rfl, rfl, rfl, rfl⟩

/-- C3: in both `linksAPI.searchLinks` and `linksAPI.getLinks` the
`user_id` parameter is present exactly when the supplied user id is
truthy (a non-null, non-empty string); otherwise it is omitted and the
request goes out unscoped. -/
theorem owner_filter_iff_truthy (query : String) (lim : Option ℕ)
    (thr : Option ℚ) (skip lim2 : Option ℕ) (uid : Option String) :
    ((linksAPI_searchLinks query lim thr uid).user_id ≠ none ↔
       jsTruthy uid = true) ∧
    ((linksAPI_getLinks skip lim2 uid).user_id ≠ none ↔
       jsTruthy uid = true) ∧
    (jsTruthy uid = true →
       (linksAPI_searchLinks query lim thr uid).user_id = uid ∧
       (linksAPI_getLinks skip lim2 uid).user_id = uid) ∧
    (jsTruthy uid = false →
       (linksAPI_searchLinks query lim thr uid).user_id = none ∧
       (linksAPI_getLinks skip lim2 uid).user_id = none) ∧
    (jsTruthy uid = true ↔ ∃ s, uid = some s ∧ s ≠ "") := by
  rcases uid with _ | v
  · simp [linksAPI_searchLinks, linksAPI_getLinks, jsTruthy]
  · by_cases hv : v = "" <;>
      simp [linksAPI_searchLinks, linksAPI_getLinks, jsTruthy, hv]

/-- Witness for C3: a truthy id is forwarded, an absent one omitted. -/
theorem owner_filter_iff_truthy_witness :
    (linksAPI_searchLinks "q" none none (some "u1")).user_id = some "u1" ∧
    (linksAPI_getLinks none none none).user_id = none :=
  ⟨((owner_filter_iff_truthy "q" none none none none (some "u1")).2.2.1
      (by decide)).1,
   ((owner_filter_iff_truthy "q" none none none none none).2.2.2.1
      (by decide)).2⟩

/-- C10: the `fetchLinks` wrapper calls `getLinks` with no arguments, so
every such load requests `skip = 0` and `limit = 100` (and no owner
filter); these are exactly `getLinks`'s defaults. -/
theorem fetchLinks_defaults (uid : Option String) :
    fetchLinks = linksAPI_getLinks none none none ∧
    fetchLinks.skip = 0 ∧
    fetchLinks.limit = 100 ∧
    fetchLinks.user_id = none ∧
    (linksAPI_getLinks none none uid).skip = 0 ∧
    (linksAPI_getLinks none none uid).limit = 100 :=
  ⟨rfl, rfl, rfl, rfl, rfl, rfl⟩

/-- C4: `SearchResults` renders exactly one state, in fixed priority
order: the loading view while `loading`; else the `Search Failed` error
view when `error` is set; else, with `null`/empty results, the
`No results found` view when a query is present and nothing otherwise;
else the list of result cards.  The error view is a different render
state from the no-results view, so a failed search is always rendered
distinctly from an empty result set. -/
theorem searchResults_render_priority (results : Option (List SearchResult))
    (loading : Bool) (error : Option String) (query : String) :
    (loading = true →
       renderSearchResults results loading error query = .loadingView query) ∧
    (loading = false → jsTruthy error = true →
       renderSearchResults results loading error query =
         .errorView (error.getD "")) ∧
    (loading = false → jsTruthy error = false →
       (results = none ∨ results = some []) →
       renderSearchResults results loading error query =
         (if query = "" then .nothing else .noResultsView)) ∧
    (loading = false → jsTruthy error = false →
       ∀ rs, results = some rs → rs ≠ [] →
       renderSearchResults results loading error query =
         .resultsList (rs.map renderResultCard)) ∧
    (∀ m, (SearchView.errorView m ≠ .noResultsView ∧
           SearchView.errorView m ≠ .nothing)) := by
  refine ⟨?_, ?_, ?_, ?_, ?_⟩
  · intro hl; simp [renderSearchResults, hl]
  · intro hl he; simp [renderSearchResults, hl, he]
  · intro hl he hr
    by_cases hq : query = "" <;>
      rcases hr with rfl | rfl <;>
      simp [renderSearchResults, hl, he, hq]
  · intro hl he rs hrs hne
    subst hrs
    have : rs.length ≠ 0 := by simpa [List.length_eq_zero] using hne
    simp [renderSearchResults, hl, he, this]
  · intro m; exact ⟨by simp, by simp⟩

/-- Witness for C4 at a concrete failed search. -/
theorem searchResults_render_priority_witness :
    renderSearchResults none false (some "boom") "q" = .errorView "boom" :=
  (searchResults_render_priority none false (some "boom") "q").2.1 rfl
    (by decide)

/-- C5: the submitted `tags` field equals the raw tags string split on
commas, each entry trimmed, empty entries removed (order preserved and
duplicates kept, being a `map` followed by a `filter`), and an empty tags
field submits `[]`. -/
theorem tags_processing (s : String) :
    processTags s =
      ((jsSplit s ',').map jsTrim).filter (fun tag => tag != "") ∧
    processTags "" = [] ∧
    (∀ validateUrl url t d data,
      (linkFormSubmit validateUrl url t d s = .submitted data ∨
       addLinkModalSubmit validateUrl url t d s = .submitted data) →
      data.tags = processTags s) := by
  refine ⟨?_, rfl, ?_⟩
  · by_cases h : s = ""
    · subst h; decide
    · simp [processTags, h]
  · intro validateUrl url t d data h
    by_cases h1 : jsTrim url = ""
    · simp [linkFormSubmit, addLinkModalSubmit, h1] at h
    · by_cases h2 : validateUrl url
      · rcases h with h | h <;>
          · simp [linkFormSubmit, addLinkModalSubmit, h1, h2] at h
            rw [← h]
      · simp [linkFormSubmit, addLinkModalSubmit, h1, h2] at h

/-- Witness for C5: the tags string `" a, b ,"` submits as the processed
list. -/
theorem tags_processing_witness :
    (LinkSubmission.mk "http://a" none none ["a", "b"]).tags =
      processTags " a, b ," :=
  (tags_processing " a, b ,").2.2 (fun _ => true) "http://a" "" ""
    ⟨"http://a", none, none, ["a", "b"]⟩ (Or.inl (by decide))

/-- C6: the aggregate score badge and every displayed per-chunk score are
rendered as `Math.round(score * 100)` followed by `%`; the rounding is
applied only in producing the card text, while the scores on the
(immutable) result value feed in unmodified. -/
theorem score_display (r : SearchResult) :
    (renderResultCard r).scoreText =
      toString (mathRound (r.score * 100)) ++ "%" ∧
    (renderResultCard r).chunkCards =
      (r.matching_chunks.take 2).map
        (fun c => (c.text, toString (mathRound (c.score * 100)) ++ "%")) := by
  refine ⟨rfl, ?_⟩
  by_cases h : r.matching_chunks.length > 0
  · simp [renderResultCard, h, displayScore]
  · have h0 : r.matching_chunks = [] := by
      simpa [List.length_eq_zero] using h
    simp [renderResultCard, h0]

/-- C7: a result with matching chunks shows at most the first two chunks,
in `matching_chunks` order, and when more than two matched it also shows
a `+N more matching sections` count with `N = length - 2`; the chunk
sequence on the result itself is read, never altered. -/
theorem chunk_truncation (r : SearchResult)
    (h : r.matching_chunks.length > 0) :
    (renderResultCard r).chunkCards =
      (r.matching_chunks.take 2).map
        (fun c => (c.text, displayScore c.score)) ∧
    (renderResultCard r).chunkCards.length =
      min r.matching_chunks.length 2 ∧
    (renderResultCard r).moreChunks =
      (if r.matching_chunks.length > 2 then
        some (r.matching_chunks.length - 2) else none) := by
  refine ⟨by simp [renderResultCard, h], ?_, ?_⟩
  · simp [renderResultCard, h, Nat.min_comm]
  · by_cases h2 : r.matching_chunks.length > 2 <;>
      simp [renderResultCard, h, h2]

/-- Witness for C7 at a three-chunk result. -/
theorem chunk_truncation_witness :
    (renderResultCard
      { link_id := "l1", title := none, url := "http://a", score := 9/10
        matching_chunks := [⟨"c1", 9/10⟩, ⟨"c2", 8/10⟩, ⟨"c3", 7/10⟩]
        tags := [], created_at := "t" }).moreChunks = some 1 := by
  have h := chunk_truncation
    { link_id := "l1", title := none, url := "http://a", score := 9/10
      matching_chunks := [⟨"c1", 9/10⟩, ⟨"c2", 8/10⟩, ⟨"c3", 7/10⟩]
      tags := [], created_at := "t" } (by simp)
  simpa using h.2.2

/-- C8: a create-link request goes out exactly when the url field is
non-empty after trimming and accepted by the URL parser; otherwise the
matching field error is set (`URL is required` for a blank field,
`Please enter a valid URL` for a parse failure) and `onSubmit` is never
invoked.  `AddLinkModal.handleSubmit` behaves identically to
`LinkForm.handleSubmit`. -/
theorem url_validation (validateUrl : String → Bool)
    (url title description tags : String) :
    ((∃ data, linkFormSubmit validateUrl url title description tags =
        .submitted data) ↔
      (jsTrim url ≠ "" ∧ validateUrl url = true)) ∧
    (jsTrim url = "" →
      linkFormSubmit validateUrl url title description tags =
        .fieldError "url" "URL is required") ∧
    (jsTrim url ≠ "" → validateUrl url = false →
      linkFormSubmit validateUrl url title description tags =
        .fieldError "url" "Please enter a valid URL") ∧
    addLinkModalSubmit validateUrl url title description tags =
      linkFormSubmit validateUrl url title description tags := by
  by_cases h1 : jsTrim url = ""
  · simp [linkFormSubmit, addLinkModalSubmit, h1]
  · by_cases h2 : validateUrl url <;>
      simp [linkFormSubmit, addLinkModalSubmit, h1, h2]

/-- Witness for C8: blank url, parse failure, and a successful submit. -/
theorem url_validation_witness :
    linkFormSubmit (fun _ => true) " " "" "" "" =
      .fieldError "url" "URL is required" ∧
    linkFormSubmit (fun _ => false) "x" "" "" "" =
      .fieldError "url" "Please enter a valid URL" ∧
    (∃ data, linkFormSubmit (fun _ => true) "http://a" "" "" "" =
      .submitted data) :=
  ⟨(url_validation (fun _ => true) " " "" "" "").2.1 (by decide),
   (url_validation (fun _ => false) "x" "" "" "").2.2.1 (by decide) rfl,
   (url_validation (fun _ => true) "http://a" "" "" "").1.mpr
     ⟨by decide, rfl⟩⟩

/-- The sidebar filter predicate, characterised as substring occurrence of
the lowercased filter in the lowercased fields. -/
theorem linkMatchesFilter_iff (f : String) (l : SidebarLink) :
    linkMatchesFilter f l = true ↔
      (f = "" ∨
       (∃ s, l.title = some s ∧
         ∃ p q, s.toLower.toList = p ++ f.toLower.toList ++ q) ∨
       (∃ s, l.description = some s ∧
         ∃ p q, s.toLower.toList = p ++ f.toLower.toList ++ q) ∨
       (∃ s, l.url = some s ∧
         ∃ p q, s.toLower.toList = p ++ f.toLower.toList ++ q) ∨
       (∃ ts, l.tags = some ts ∧ ∃ tag ∈ ts,
         ∃ p q, tag.toLower.toList = p ++ f.toLower.toList ++ q)) := by
  by_cases hf : f = ""
  · simp [linkMatchesFilter, hf]
  · rw [linkMatchesFilter]
    rcases htags : l.tags with _ | ts <;>
      simp [hf, htags, optFieldIncludes_iff, jsIncludes_iff,
        List.any_eq_true] <;>
      simp [or_assoc]

/-- C9: a link passes the sidebar filter exactly when the filter is empty
or the lowercased filter occurs as a substring of the link's lowercased
title, description, or url, or of one of its lowercased tags; the
filtered list is an order-preserving subsequence of the input list. -/
theorem sidebar_filter_correct (f : String) (links : List SidebarLink) :
    (∀ l, l ∈ filteredLinks f links ↔
      l ∈ links ∧
      (f = "" ∨
       (∃ s, l.title = some s ∧
         ∃ p q, s.toLower.toList = p ++ f.toLower.toList ++ q) ∨
       (∃ s, l.description = some s ∧
         ∃ p q, s.toLower.toList = p ++ f.toLower.toList ++ q) ∨
       (∃ s, l.url = some s ∧
         ∃ p q, s.toLower.toList = p ++ f.toLower.toList ++ q) ∨
       (∃ ts, l.tags = some ts ∧ ∃ tag ∈ ts,
         ∃ p q, tag.toLower.toList = p ++ f.toLower.toList ++ q))) ∧
    List.Sublist (filteredLinks f links) links := by
  refine ⟨fun l => ?_, List.filter_sublist links⟩
  rw [filteredLinks, List.mem_filter, linkMatchesFilter_iff]
